import Mathlib

/-!
# Verification of the `Keychain` vault engine (`keychain.js`)

Shallow embedding of the password-vault core: the `Keychain` class with its
`init`, `load`, `dump`, `get`, `set`, `remove` operations, built on
PBKDF2-SHA256 key derivation, AES-GCM authenticated encryption, SHA-256
checksums and base64 transport coding.

Modelling conventions, stated once here and referenced below:

* **Bytes** are `List Nat` (each entry a byte value; `getRandomBytes`
  reduces mod 256 as `Uint8Array` does).
* **Transport codings are identified away.** `encodeBuffer`/`decodeBuffer`
  (base64) and `stringToBuffer`/`bufferToString` (UTF-8) are mutually
  inverse bijections onto their ranges in `lib.js`; the model identifies a
  base64 string with the byte sequence it encodes, so these four functions
  become identities and do not appear explicitly.
* **Ideal primitives.** The orchestration, not the primitive construction,
  is what is being verified, so the cryptographic primitives are taken at
  their ideal functional contracts:
  - PBKDF2-SHA256 (100000 iterations) is a deterministic, collision-free
    key-derivation function; a derived key is represented by its inputs
    (`DerivedKey`).
  - AES-GCM is ideal authenticated encryption: decryption with exactly the
    producing key and iv recovers the plaintext, any other key or iv is
    rejected (`aesGcmEncrypt` / `aesGcmDecrypt`).
  - SHA-256 is a deterministic, collision-free digest; a digest value is
    represented by its preimage (`Digest`).
* **JS strings** that flow through `JSON.parse`/`JSON.stringify` are
  modelled by inductives whose constructors record whether the string is a
  canonical JSON encoding (`PlainStr`, `ReprStr`); `JSON.stringify` is
  injective on the objects this program serialises and `JSON.parse` is its
  partial inverse.
* **JS objects** (the vault `{}`) are own-property association lists with
  duplicate-free keys plus the properties every plain object inherits from
  `Object.prototype` (`protoProps`): the JS `in` operator and property
  reads see those inherited members.
* **Randomness** (`webcrypto.getRandomValues`) is an explicit byte tape
  `Nat → Nat` passed to the operations that draw random bytes.
* **Exceptions** become explicit result constructors: `load` returns a
  `LoadResult` whose `rawError` constructor marks an exception that the
  source does *not* catch and re-signal (a raw `SyntaxError`/`TypeError`
  escaping the function), as distinct from the typed `IntegrityError` and
  `DecryptionError` messages it throws deliberately.
-/

set_option autoImplicit false

/-- `PBKDF2_ITERATIONS` from `keychain.js`. -/
def PBKDF2_ITERATIONS : Nat := 100000

/-- `MAX_PASSWORD_LENGTH` from `keychain.js` (documented assumption, not
enforced anywhere in the code). -/
def MAX_PASSWORD_LENGTH : Nat := 64

/-- A key produced by `Keychain.#deriveKey` (PBKDF2-SHA256,
`PBKDF2_ITERATIONS` iterations, 256-bit AES-GCM key). Ideal-KDF model: the
derivation is deterministic and collision-free, so the key is represented
by the `(password, salt)` pair that produced it. -/
structure DerivedKey where
  password : String
  salt : List Nat
deriving DecidableEq, Repr

/-- `Keychain.#deriveKey(password, salt)`. -/
def deriveKey (password : String) (salt : List Nat) : DerivedKey :=
  { password := password, salt := salt }

/-- A decrypted plaintext string, as seen by `JSON.parse` in `load`:
either the `JSON.stringify` serialisation of a vault object (an
own-property map of string names to string values), or any other string,
which `JSON.parse` rejects with a `SyntaxError`. -/
inductive PlainStr where
  /-- `JSON.stringify(vault)` for a vault with the given own properties
  (in insertion order, duplicate-free keys). -/
  | vaultJson : List (String × String) → PlainStr
  /-- A string that is not the serialisation of a vault object. -/
  | raw : String → PlainStr
deriving DecidableEq, Repr

/-- An AES-GCM ciphertext (the bytes `subtle.encrypt` returns). Ideal
authenticated-encryption model: the ciphertext determines, and is
determined by, the key, iv and plaintext that produced it; decryption
(`aesGcmDecrypt`) succeeds exactly under that key and iv. -/
structure AEADCt where
  key : DerivedKey
  iv : List Nat
  plaintext : PlainStr
deriving DecidableEq, Repr

/-- `subtle.encrypt({name: "AES-GCM", iv}, key, plaintext)`. -/
def aesGcmEncrypt (key : DerivedKey) (iv : List Nat) (pt : PlainStr) : AEADCt :=
  { key := key, iv := iv, plaintext := pt }

/-- `subtle.decrypt({name: "AES-GCM", iv}, key, ct)`: recovers the
plaintext when `key` and `iv` are exactly the ones that produced `ct`,
and fails (throws, modelled as `none`) otherwise — wrong password and
tampered ciphertext are indistinguishable failures. -/
def aesGcmDecrypt (key : DerivedKey) (iv : List Nat) (ct : AEADCt) : Option PlainStr :=
  if ct.key = key ∧ ct.iv = iv then some ct.plaintext else none

/-- The parsed form of a representation string: the object
`{salt, iv, ciphertext}` assembled by `dump` (base64 fields identified
with the bytes they encode). -/
structure ReprObj where
  salt : List Nat
  iv : List Nat
  ciphertext : AEADCt
deriving DecidableEq, Repr

/-- A representation string as passed to `load`: either
`JSON.stringify` of a `{salt, iv, ciphertext}` object, or any other
string (which `JSON.parse`/`decodeBuffer` reject with a raw exception). -/
inductive ReprStr where
  /-- `JSON.stringify({salt, iv, ciphertext})`. -/
  | json : ReprObj → ReprStr
  /-- A string that does not parse as a representation object. -/
  | raw : String → ReprStr
deriving DecidableEq, Repr

/-- The base64-encoded SHA-256 digest of a representation string
(`encodeBuffer(await subtle.digest("SHA-256", stringToBuffer(s)))`).
Ideal-hash model: the digest is deterministic and collision-free, so it is
represented by its preimage. -/
structure Digest where
  preimage : ReprStr
deriving DecidableEq, Repr

/-- `subtle.digest("SHA-256", ·)` followed by `encodeBuffer`. -/
def sha256Digest (r : ReprStr) : Digest :=
  { preimage := r }

/-- The JS value passed as `trustedDataCheck` to `load`: `undefined` when
the caller omits it, or a string — either the digest encoding of some
representation string, or any other string (non-digest strings never
compare equal to a computed checksum). -/
inductive CheckVal where
  /-- Argument omitted (`undefined`). -/
  | undef : CheckVal
  /-- A string equal to the encoded SHA-256 digest of some representation
  string. -/
  | digestStr : Digest → CheckVal
  /-- Any other string (including the empty string). -/
  | otherStr : String → CheckVal
deriving DecidableEq, Repr

/-- JS truthiness of the `trustedDataCheck` value, as tested by
`if (trustedDataCheck)`: `undefined` and the empty string are falsy,
every other string is truthy (digest strings are 44 characters of
base64, never empty). -/
def CheckVal.truthy : CheckVal → Bool
  | .undef => false
  | .digestStr _ => true
  | .otherStr s => s ≠ ""

/-- Whether `computedChecksum !== trustedDataCheck` is *false* in `load`,
i.e. the supplied string equals the recomputed digest of `repr`. A
non-digest string matches nothing (ideal hash: it is not the digest
encoding of any representation string). -/
def CheckVal.matches : CheckVal → ReprStr → Bool
  | .undef, _ => false
  | .digestStr d, r => d = sha256Digest r
  | .otherStr _, _ => false

/-- The names of the properties every plain JS object (`{}`, and objects
built by `JSON.parse`) inherits from `Object.prototype`. The `in`
operator reports `true` for these on any plain object, and reading them
yields the inherited member (a function, or `Object.prototype` itself for
`__proto__`) — truthy, non-string values. -/
def protoProps : List String :=
  ["constructor", "hasOwnProperty", "isPrototypeOf", "propertyIsEnumerable",
   "toLocaleString", "toString", "valueOf",
   "__defineGetter__", "__defineSetter__", "__lookupGetter__",
   "__lookupSetter__", "__proto__"]

/-- Engine state: `this.data.salt` (base64-identified with its bytes),
`this.secrets.encKey`, and the own properties of `this.secrets.vault`
(insertion order, duplicate-free keys). -/
structure Keychain where
  salt : List Nat
  encKey : DerivedKey
  vault : List (String × String)
deriving DecidableEq, Repr

/-- Own-property read `vault[name]` restricted to own properties:
`some v` when `name` is an own property with value `v`. -/
def lookupOwn (v : List (String × String)) (name : String) : Option String :=
  (v.find? (fun p => p.1 == name)).map Prod.snd

/-- Own-property write `vault[name] = value`: overwrite in place when the
key exists, append otherwise (JS objects keep insertion order). -/
def setOwn (v : List (String × String)) (name value : String) : List (String × String) :=
  if (v.find? (fun p => p.1 == name)).isSome then
    v.map (fun p => if p.1 == name then (name, value) else p)
  else
    v ++ [(name, value)]

/-- `delete vault[name]` on own properties: removes the own property when
present, leaves the list unchanged otherwise. -/
def removeOwn (v : List (String × String)) (name : String) : List (String × String) :=
  v.filter (fun p => p.1 != name)

/-- `webcrypto.getRandomValues(new Uint8Array(n))` (`lib.js
getRandomBytes`): `n` bytes drawn from the entropy tape. -/
def getRandomBytes (n : Nat) (tape : Nat → Nat) : List Nat :=
  (List.range n).map (fun i => tape i % 256)

/-- `static async init(password)`: draws a fresh 16-byte salt, derives
the key, and constructs the engine with an empty vault. The source
performs no validation of `password` whatsoever. -/
def Keychain.init (password : String) (tape : Nat → Nat) : Keychain :=
  let salt := getRandomBytes 16 tape
  let encKey := deriveKey password salt
  { salt := salt, encKey := encKey, vault := [] }

/-- `async dump()`: serialise the vault, draw a fresh 12-byte iv, encrypt
under the engine key, assemble `{salt, iv, ciphertext}`, and return the
representation string with its SHA-256 checksum. -/
def Keychain.dump (kc : Keychain) (tape : Nat → Nat) : ReprStr × Digest :=
  let iv := getRandomBytes 12 tape
  let ciphertext := aesGcmEncrypt kc.encKey iv (PlainStr.vaultJson kc.vault)
  let repr := ReprStr.json { salt := kc.salt, iv := iv, ciphertext := ciphertext }
  (repr, sha256Digest repr)

/-- Outcome of `static async load(password, repr, trustedDataCheck)`. -/
inductive LoadResult where
  /-- Normal return of a reconstructed engine. -/
  | ok : Keychain → LoadResult
  /-- `throw new Error("Integrity check failed: ...")`. -/
  | integrityError : LoadResult
  /-- `throw new Error("Failed to decrypt: ...")`. -/
  | decryptionError : LoadResult
  /-- An exception the source does not catch: the `SyntaxError` of
  `JSON.parse` on a malformed `repr` or on malformed decrypted plaintext
  (the latter sits *outside* the `try`/`catch` in the source), or the
  `TypeError` of `decodeBuffer` on missing fields. -/
  | rawError : LoadResult
deriving DecidableEq, Repr

/-- `static async load(password, repr, trustedDataCheck)`, step for step:
checksum verification first (only when `trustedDataCheck` is truthy),
then `JSON.parse(repr)` and field decoding, key derivation, AES-GCM
decryption inside `try`/`catch` (re-thrown as the single decryption
error), and finally `JSON.parse` of the plaintext — which the source
leaves *outside* the `try`/`catch`. -/
def Keychain.load (password : String) (repr : ReprStr) (trustedDataCheck : CheckVal) : LoadResult :=
  if trustedDataCheck.truthy && !(trustedDataCheck.matches repr) then
    LoadResult.integrityError
  else
    match repr with
    | ReprStr.raw _ => LoadResult.rawError
    | ReprStr.json r =>
      let encKey := deriveKey password r.salt
      match aesGcmDecrypt encKey r.iv r.ciphertext with
      | none => LoadResult.decryptionError
      | some pt =>
        match pt with
        | PlainStr.vaultJson v =>
          LoadResult.ok { salt := r.salt, encKey := encKey, vault := v }
        | PlainStr.raw _ => LoadResult.rawError

/-- Outcome of `async get(name)` (`return this.secrets.vault[name] || null`):
the stored string, JS `null`, or a member inherited from
`Object.prototype` (truthy, so `|| null` passes it through). -/
inductive GetResult where
  /-- A stored (truthy, i.e. non-empty) string value. -/
  | found : String → GetResult
  /-- JS `null`. -/
  | nullResult : GetResult
  /-- An inherited `Object.prototype` member (a function, or
  `Object.prototype` for `__proto__`). -/
  | inherited : GetResult
deriving DecidableEq, Repr

/-- `async get(name)`: `this.secrets.vault[name] || null`. An own value
shadows any inherited member; the empty string is falsy, so `|| null`
turns a stored `""` into `null`; an absent name that is an
`Object.prototype` property name reads the inherited member, which is
truthy and returned as-is. -/
def Keychain.get (kc : Keychain) (name : String) : GetResult :=
  match lookupOwn kc.vault name with
  | some v => if v = "" then GetResult.nullResult else GetResult.found v
  | none =>
    if name ∈ protoProps then GetResult.inherited else GetResult.nullResult

/-- `async set(name, value)`: `this.secrets.vault[name] = value`. When
`name` is `"__proto__"` and the vault has no own property of that name,
the assignment reaches the inherited `__proto__` accessor, which ignores
a string value — no own property is created and the vault is unchanged. -/
def Keychain.set (kc : Keychain) (name value : String) : Keychain :=
  if name = "__proto__" && (lookupOwn kc.vault name).isNone then
    kc
  else
    { kc with vault := setOwn kc.vault name value }

/-- `async remove(name)`: `if (name in this.secrets.vault) { delete ...;
return true } return false`, returning the reported Boolean together with
the resulting state. The JS `in` operator also reports `true` for the
properties inherited from `Object.prototype`; `delete` on such a name
removes nothing and the method still returns `true`. -/
def Keychain.remove (kc : Keychain) (name : String) : Bool × Keychain :=
  if (lookupOwn kc.vault name).isSome || name ∈ protoProps then
    (true, { kc with vault := removeOwn kc.vault name })
  else
    (false, kc)

/-- The salt field of a representation string, when it parses. -/
def ReprStr.saltOf : ReprStr → Option (List Nat)
  | ReprStr.json r => some r.salt
  | ReprStr.raw _ => none

/-- The iv field of a representation string, when it parses. -/
def ReprStr.ivOf : ReprStr → Option (List Nat)
  | ReprStr.json r => some r.iv
  | ReprStr.raw _ => none

/-- The ciphertext field of a representation string, when it parses. -/
def ReprStr.ctOf : ReprStr → Option AEADCt
  | ReprStr.json r => some r.ciphertext
  | ReprStr.raw _ => none


/-!
## Helper lemmas
-/

/-- Loading a dump of an engine whose key was derived from password `P`
and the engine's own salt, under the same password and the checksum that
`dump` returned, reconstructs exactly that engine. -/
lemma load_dump_aux (P : String) (salt : List Nat) (E : List (String × String))
    (tape : Nat → Nat) :
    Keychain.load P (Keychain.dump ⟨salt, deriveKey P salt, E⟩ tape).1
      (CheckVal.digestStr (Keychain.dump ⟨salt, deriveKey P salt, E⟩ tape).2)
      = LoadResult.ok ⟨salt, deriveKey P salt, E⟩ := by
  simp [Keychain.load, Keychain.dump, CheckVal.truthy, CheckVal.matches,
        aesGcmDecrypt, aesGcmEncrypt, sha256Digest]

/-- When the checksum gate does not fire, `load` never reports an
integrity error. -/
lemma load_ne_integrity (p : String) (r : ReprStr) (c : CheckVal)
    (h : (c.truthy && !(c.matches r)) = false) :
    Keychain.load p r c ≠ LoadResult.integrityError := by
  unfold Keychain.load
  rw [h]
  cases r with
  | raw s => simp
  | json ro =>
    cases hd : aesGcmDecrypt (deriveKey p ro.salt) ro.iv ro.ciphertext with
    | none => simp [hd]
    | some pt => cases pt <;> simp [hd]

/-- A filter that removes the entries with key `name` does nothing when no
entry has that key. -/
lemma removeOwn_of_lookup_none (v : List (String × String)) (name : String)
    (h : lookupOwn v name = none) : removeOwn v name = v := by
  rw [removeOwn, List.filter_eq_self]
  intro a ha
  have hf : v.find? (fun p => p.1 == name) = none := by
    cases hf : v.find? (fun p => p.1 == name) with
    | none => rfl
    | some q => rw [lookupOwn, hf] at h; simp at h
  have := List.find?_eq_none.mp hf a ha
  simpa [bne] using this

/-- After `removeOwn`, the removed key has no own property. -/
lemma lookupOwn_removeOwn (v : List (String × String)) (name : String) :
    lookupOwn (removeOwn v name) name = none := by
  have hf : (removeOwn v name).find? (fun p => p.1 == name) = none := by
    rw [List.find?_eq_none]
    intro a ha
    have := (List.mem_filter.mp ha).2
    simpa [bne] using this
  rw [lookupOwn, hf]; rfl

/-!
## Claim theorems
-/

/-- C1: Round-trip — for every password `P` and every entries map `E`
(a duplicate-free-keyed vault object), sealing an engine for `P` that
holds `E` with `dump` and reconstructing an engine from the resulting
representation string (and its checksum) with `load` under the same
password `P` yields an engine whose entries map equals `E`. -/
theorem dump_load_roundtrip (P : String) (salt : List Nat)
    (E : List (String × String)) (tape : Nat → Nat)
    (_hE : (E.map Prod.fst).Nodup) :
    Keychain.load P (Keychain.dump ⟨salt, deriveKey P salt, E⟩ tape).1
      (CheckVal.digestStr (Keychain.dump ⟨salt, deriveKey P salt, E⟩ tape).2)
      = LoadResult.ok ⟨salt, deriveKey P salt, E⟩ :=
  load_dump_aux P salt E tape

/-- Witness for C1 at the spec's concrete scenario vault. -/
theorem dump_load_roundtrip_witness :
    ([("github.com", "s3cr3t")].map (Prod.fst (α := String) (β := String))).Nodup ∧
    Keychain.load "pw"
      (Keychain.dump ⟨[1, 2], deriveKey "pw" [1, 2], [("github.com", "s3cr3t")]⟩ (fun _ => 0)).1
      (CheckVal.digestStr
        (Keychain.dump ⟨[1, 2], deriveKey "pw" [1, 2], [("github.com", "s3cr3t")]⟩ (fun _ => 0)).2)
      = LoadResult.ok ⟨[1, 2], deriveKey "pw" [1, 2], [("github.com", "s3cr3t")]⟩ :=
  ⟨by decide,
   dump_load_roundtrip "pw" [1, 2] [("github.com", "s3cr3t")] (fun _ => 0) (by decide)⟩

/-- C3: the supplied checksum gates everything — when a truthy checksum
string does not equal the recomputed SHA-256 digest of the raw
representation string, `load` fails with the integrity error, for *every*
representation (even unparseable ones) and every password, i.e. before
any parsing, key derivation or decryption; and a representation/checksum
pair returned by `dump` never trips the integrity gate, for any password
attempted. -/
theorem load_checksum_gate (p q : String) (r : ReprStr) (c : CheckVal)
    (kc : Keychain) (tape : Nat → Nat) :
    (c.truthy = true → c.matches r = false → Keychain.load p r c = LoadResult.integrityError) ∧
    Keychain.load q (Keychain.dump kc tape).1 (CheckVal.digestStr (Keychain.dump kc tape).2)
      ≠ LoadResult.integrityError := by
  constructor
  · intro ht hm
    unfold Keychain.load
    rw [ht, hm]
    rfl
  · apply load_ne_integrity
    simp [Keychain.dump, CheckVal.truthy, CheckVal.matches, sha256Digest]

/-- Witness for C3: a mismatching checksum on a dumped representation is
rejected, and the checksum `dump` returned is accepted. -/
theorem load_checksum_gate_witness :
    Keychain.load "pw"
      (Keychain.dump ⟨[1], deriveKey "pw" [1], []⟩ (fun _ => 0)).1
      (CheckVal.otherStr "bogus") = LoadResult.integrityError ∧
    Keychain.load "other"
      (Keychain.dump ⟨[1], deriveKey "pw" [1], []⟩ (fun _ => 0)).1
      (CheckVal.digestStr (Keychain.dump ⟨[1], deriveKey "pw" [1], []⟩ (fun _ => 0)).2)
      ≠ LoadResult.integrityError :=
  ⟨(load_checksum_gate "pw" "other"
      (Keychain.dump ⟨[1], deriveKey "pw" [1], []⟩ (fun _ => 0)).1
      (CheckVal.otherStr "bogus") ⟨[1], deriveKey "pw" [1], []⟩ (fun _ => 0)).1
      (by decide) (by decide),
   (load_checksum_gate "pw" "other"
      (Keychain.dump ⟨[1], deriveKey "pw" [1], []⟩ (fun _ => 0)).1
      (CheckVal.otherStr "bogus") ⟨[1], deriveKey "pw" [1], []⟩ (fun _ => 0)).2⟩

/-- C4: wrong-password rejection — loading a representation that `dump`
produced for an engine keyed under password `P`, with any password
`Q ≠ P` (and a checksum argument that does not itself trip the integrity
gate), fails with exactly the decryption error: never a successful open,
never an uncaught low-level exception. -/
theorem load_wrong_password (P Q : String) (salt : List Nat)
    (E : List (String × String)) (tape : Nat → Nat) (c : CheckVal)
    (hQ : Q ≠ P)
    (hc : c.truthy = true →
      c.matches (Keychain.dump ⟨salt, deriveKey P salt, E⟩ tape).1 = true) :
    Keychain.load Q (Keychain.dump ⟨salt, deriveKey P salt, E⟩ tape).1 c
      = LoadResult.decryptionError := by
  have hgate : (c.truthy && !(c.matches (Keychain.dump ⟨salt, deriveKey P salt, E⟩ tape).1)) = false := by
    cases ht : c.truthy with
    | false => simp
    | true => simp [hc ht]
  unfold Keychain.load
  rw [hgate]
  have hPQ : ¬ (P = Q) := fun h => hQ h.symm
  simp [Keychain.dump, aesGcmDecrypt, aesGcmEncrypt, deriveKey, hPQ]

/-- Witness for C4 at the spec's concrete scenario. -/
theorem load_wrong_password_witness :
    Keychain.load "wrong password"
      (Keychain.dump ⟨[7], deriveKey "correct horse" [7],
        [("github.com", "s3cr3t")]⟩ (fun _ => 3)).1 CheckVal.undef
      = LoadResult.decryptionError :=
  load_wrong_password "correct horse" "wrong password" [7]
    [("github.com", "s3cr3t")] (fun _ => 3) CheckVal.undef
    (by decide) (by intro h; exact absurd h (by decide))

/-- C10: a falsy `trustedDataCheck` — the empty string just like an
omitted argument — skips the integrity verification entirely: `load`
behaves exactly as with no checksum supplied and never reports an
integrity error. -/
theorem load_empty_checksum_skipped (p : String) (r : ReprStr) :
    Keychain.load p r (CheckVal.otherStr "") = Keychain.load p r CheckVal.undef ∧
    Keychain.load p r (CheckVal.otherStr "") ≠ LoadResult.integrityError := by
  have huntruthy : (CheckVal.otherStr "").truthy = false := by decide
  constructor
  · unfold Keychain.load
    rw [huntruthy]
    rfl
  · apply load_ne_integrity
    rw [huntruthy]
    rfl

/-- C2 (code bug in the source): when authenticated decryption succeeds
but the plaintext does not parse as an entries map, `load` does *not*
fail with the decryption error the spec prescribes — the source calls
`JSON.parse(vaultString)` outside the `try`/`catch`, so the raw
`SyntaxError` escapes. Evaluated here at a concrete sealed input whose
plaintext is the non-JSON string `"oops"` under the correct password. -/
theorem load_unparseable_plaintext_raw :
    Keychain.load "pw"
      (ReprStr.json ⟨[1], [2], aesGcmEncrypt (deriveKey "pw" [1]) [2] (PlainStr.raw "oops")⟩)
      CheckVal.undef = LoadResult.rawError ∧
    Keychain.load "pw"
      (ReprStr.json ⟨[1], [2], aesGcmEncrypt (deriveKey "pw" [1]) [2] (PlainStr.raw "oops")⟩)
      CheckVal.undef ≠ LoadResult.decryptionError := by
  exact ⟨rfl, by decide⟩

/-- C5 counterexample: the claim that `get` returns exactly the stored
value for a present name and an explicit not-found result for an absent
one is false at two concrete inputs. A stored empty-string value is
present (`lookupOwn` finds it) yet `get` returns `null` — the source's
`vault[name] || null` treats the falsy `""` as absent. And the absent
name `"toString"` does not yield the not-found result: the source reads
the member inherited from `Object.prototype`, which is truthy and
returned as-is. -/
theorem get_claim_counterexample :
    lookupOwn [("a", "")] "a" = some "" ∧
    Keychain.get ⟨[0], deriveKey "pw" [0], [("a", "")]⟩ "a" = GetResult.nullResult ∧
    Keychain.get ⟨[0], deriveKey "pw" [0], [("a", "")]⟩ "a" ≠ GetResult.found "" ∧
    lookupOwn ([] : List (String × String)) "toString" = none ∧
    Keychain.get ⟨[0], deriveKey "pw" [0], []⟩ "toString" = GetResult.inherited ∧
    Keychain.get ⟨[0], deriveKey "pw" [0], []⟩ "toString" ≠ GetResult.nullResult := by
  refine ⟨rfl, rfl, by decide, rfl, ?_, by decide⟩
  decide

/-- C5 amended: `get` never throws, and behaves as follows — it returns
the stored value when the name is present with a non-empty value; it
returns `null` when the name is present with the empty-string value
(indistinguishable from not found); it returns `null` when the name is
absent and is not an `Object.prototype` property name; and it returns
the truthy inherited member when the name is absent but is an
`Object.prototype` property name. -/
theorem get_amended (kc : Keychain) (name v : String) :
    (lookupOwn kc.vault name = some v → v ≠ "" → Keychain.get kc name = GetResult.found v) ∧
    (lookupOwn kc.vault name = some "" → Keychain.get kc name = GetResult.nullResult) ∧
    (lookupOwn kc.vault name = none → name ∉ protoProps →
      Keychain.get kc name = GetResult.nullResult) ∧
    (lookupOwn kc.vault name = none → name ∈ protoProps →
      Keychain.get kc name = GetResult.inherited) := by
  refine ⟨?_, ?_, ?_, ?_⟩
  · intro hsome hv
    simp [Keychain.get, hsome, hv]
  · intro hsome
    simp [Keychain.get, hsome]
  · intro hnone hnp
    simp [Keychain.get, hnone, hnp]
  · intro hnone hp
    simp [Keychain.get, hnone, hp]

/-- Witness for C5 amended, exercising all four cases at concrete
inputs. -/
theorem get_amended_witness :
    Keychain.get ⟨[0], deriveKey "pw" [0], [("a", "x")]⟩ "a" = GetResult.found "x" ∧
    Keychain.get ⟨[0], deriveKey "pw" [0], [("a", "")]⟩ "a" = GetResult.nullResult ∧
    Keychain.get ⟨[0], deriveKey "pw" [0], [("a", "x")]⟩ "b" = GetResult.nullResult ∧
    Keychain.get ⟨[0], deriveKey "pw" [0], []⟩ "valueOf" = GetResult.inherited :=
  ⟨(get_amended ⟨[0], deriveKey "pw" [0], [("a", "x")]⟩ "a" "x").1 (by decide) (by decide),
   (get_amended ⟨[0], deriveKey "pw" [0], [("a", "")]⟩ "a" "").2.1 (by decide),
   (get_amended ⟨[0], deriveKey "pw" [0], [("a", "x")]⟩ "b" "x").2.2.1 (by decide) (by decide),
   (get_amended ⟨[0], deriveKey "pw" [0], []⟩ "valueOf" "x").2.2.2 (by decide) (by decide)⟩

/-- C6 counterexample: the claim that `remove` reports `false` for every
name not present in the entries map is false at the concrete absent name
`"toString"`: the source's `name in this.secrets.vault` test also sees
the properties inherited from `Object.prototype`, so `remove` reports
`true` (though the vault is indeed left unchanged). -/
theorem remove_claim_counterexample :
    lookupOwn ([] : List (String × String)) "toString" = none ∧
    Keychain.remove ⟨[0], deriveKey "pw" [0], []⟩ "toString"
      = (true, ⟨[0], deriveKey "pw" [0], []⟩) := by
  constructor
  · rfl
  · decide

/-- C6 amended: `remove` on a name that is absent and is not an
`Object.prototype` property name reports `false` and returns the engine
(and hence its future sealed representations) unchanged; on a present
name it reports `true` and deletes the entry; on an absent name that is
an `Object.prototype` property name it reports `true` (the JS `in`
operator sees the inherited property) while still leaving the engine
unchanged. -/
theorem remove_amended (kc : Keychain) (name : String) :
    (lookupOwn kc.vault name = none → name ∉ protoProps →
      Keychain.remove kc name = (false, kc)) ∧
    (∀ v, lookupOwn kc.vault name = some v →
      (Keychain.remove kc name).1 = true ∧
      lookupOwn (Keychain.remove kc name).2.vault name = none ∧
      (Keychain.remove kc name).2 = { kc with vault := removeOwn kc.vault name }) ∧
    (lookupOwn kc.vault name = none → name ∈ protoProps →
      Keychain.remove kc name = (true, kc)) := by
  refine ⟨?_, ?_, ?_⟩
  · intro hnone hnp
    simp [Keychain.remove, hnone, hnp]
  · intro v hsome
    have hs : (lookupOwn kc.vault name).isSome = true := by rw [hsome]; rfl
    refine ⟨?_, ?_, ?_⟩ <;>
      simp [Keychain.remove, hs, lookupOwn_removeOwn]
  · intro hnone hp
    simp [Keychain.remove, hnone, hp, removeOwn_of_lookup_none kc.vault name hnone]

/-- Witness for C6 amended, exercising all three cases at concrete
inputs. -/
theorem remove_amended_witness :
    Keychain.remove ⟨[0], deriveKey "pw" [0], [("a", "x")]⟩ "b"
      = (false, ⟨[0], deriveKey "pw" [0], [("a", "x")]⟩) ∧
    (Keychain.remove ⟨[0], deriveKey "pw" [0], [("a", "x")]⟩ "a").1 = true ∧
    lookupOwn (Keychain.remove ⟨[0], deriveKey "pw" [0], [("a", "x")]⟩ "a").2.vault "a" = none ∧
    Keychain.remove ⟨[0], deriveKey "pw" [0], [("a", "x")]⟩ "valueOf"
      = (true, ⟨[0], deriveKey "pw" [0], [("a", "x")]⟩) :=
  ⟨(remove_amended ⟨[0], deriveKey "pw" [0], [("a", "x")]⟩ "b").1 (by decide) (by decide),
   ((remove_amended ⟨[0], deriveKey "pw" [0], [("a", "x")]⟩ "a").2.1 "x" (by decide)).1,
   ((remove_amended ⟨[0], deriveKey "pw" [0], [("a", "x")]⟩ "a").2.1 "x" (by decide)).2.1,
   (remove_amended ⟨[0], deriveKey "pw" [0], [("a", "x")]⟩ "valueOf").2.2 (by decide) (by decide)⟩

/-- C7: nonce freshness — `dump` draws its iv as 12 fresh random bytes
on every call, so whenever the two random draws differ (which fresh
cryptographic randomness guarantees except with probability 2^-96), two
dumps of the same unchanged engine carry different iv values and
different ciphertexts, while loading either result with the correct
password and its own checksum reconstructs the identical entries map. -/
theorem dump_nonce_freshness (P : String) (salt : List Nat)
    (E : List (String × String)) (t1 t2 : Nat → Nat)
    (hiv : getRandomBytes 12 t1 ≠ getRandomBytes 12 t2) :
    ReprStr.ivOf (Keychain.dump ⟨salt, deriveKey P salt, E⟩ t1).1
      ≠ ReprStr.ivOf (Keychain.dump ⟨salt, deriveKey P salt, E⟩ t2).1 ∧
    ReprStr.ctOf (Keychain.dump ⟨salt, deriveKey P salt, E⟩ t1).1
      ≠ ReprStr.ctOf (Keychain.dump ⟨salt, deriveKey P salt, E⟩ t2).1 ∧
    (getRandomBytes 12 t1).length = 12 ∧
    Keychain.load P (Keychain.dump ⟨salt, deriveKey P salt, E⟩ t1).1
      (CheckVal.digestStr (Keychain.dump ⟨salt, deriveKey P salt, E⟩ t1).2)
      = LoadResult.ok ⟨salt, deriveKey P salt, E⟩ ∧
    Keychain.load P (Keychain.dump ⟨salt, deriveKey P salt, E⟩ t2).1
      (CheckVal.digestStr (Keychain.dump ⟨salt, deriveKey P salt, E⟩ t2).2)
      = LoadResult.ok ⟨salt, deriveKey P salt, E⟩ := by
  refine ⟨?_, ?_, ?_, load_dump_aux P salt E t1, load_dump_aux P salt E t2⟩
  · simpa [Keychain.dump, ReprStr.ivOf] using hiv
  · simpa [Keychain.dump, ReprStr.ctOf, aesGcmEncrypt] using hiv
  · simp [getRandomBytes]

/-- Witness for C7 with two concrete tapes whose 12-byte draws differ. -/
theorem dump_nonce_freshness_witness :
    getRandomBytes 12 (fun _ => 0) ≠ getRandomBytes 12 (fun _ => 1) ∧
    ReprStr.ivOf (Keychain.dump ⟨[5], deriveKey "pw" [5], [("a", "x")]⟩ (fun _ => 0)).1
      ≠ ReprStr.ivOf (Keychain.dump ⟨[5], deriveKey "pw" [5], [("a", "x")]⟩ (fun _ => 1)).1 :=
  ⟨by decide,
   (dump_nonce_freshness "pw" [5] [("a", "x")] (fun _ => 0) (fun _ => 1) (by decide)).1⟩

/-- C8: salt lifecycle — `init` draws the salt as 16 fresh random bytes
exactly once, at engine construction; `set` and `remove` leave the
engine's salt untouched; and every representation `dump` produces
carries exactly the engine's salt. -/
theorem salt_generated_once (password : String) (tape t2 : Nat → Nat)
    (kc : Keychain) (n v : String) :
    (Keychain.init password tape).salt = getRandomBytes 16 tape ∧
    (getRandomBytes 16 tape).length = 16 ∧
    (Keychain.set kc n v).salt = kc.salt ∧
    ((Keychain.remove kc n).2).salt = kc.salt ∧
    ReprStr.saltOf (Keychain.dump kc t2).1 = some kc.salt := by
  refine ⟨rfl, by simp [getRandomBytes], ?_, ?_, rfl⟩
  · unfold Keychain.set
    split <;> rfl
  · unfold Keychain.remove
    split <;> rfl

/-- C9 counterexample: the claim that the core `init` rejects an empty
password with an error is false — `init` performs no validation at all.
With the empty password and a concrete entropy tape it returns a working
engine: an empty vault whose dump loads back successfully under the same
empty password. (The only empty-password check in the repository is in
the out-of-scope HTTP layer.) -/
theorem init_empty_password_counterexample :
    (Keychain.init "" (fun _ => 0)).vault = [] ∧
    Keychain.load "" (Keychain.dump (Keychain.init "" (fun _ => 0)) (fun _ => 1)).1
      (CheckVal.digestStr (Keychain.dump (Keychain.init "" (fun _ => 0)) (fun _ => 1)).2)
      = LoadResult.ok (Keychain.init "" (fun _ => 0)) :=
  ⟨rfl, load_dump_aux "" (getRandomBytes 16 (fun _ => 0)) [] (fun _ => 1)⟩

/-- C9 amended: the core `init` performs no password validation — every
password, the empty string included, is accepted and produces a working
engine (fresh 16-byte salt, key derived from the given password, empty
vault, and a dump that loads back under that same password). The
missing/empty-password rejection the spec describes exists only in the
surrounding HTTP layer, which is outside the core. -/
theorem init_accepts_any_password (password : String) (t1 t2 : Nat → Nat) :
    (Keychain.init password t1).vault = [] ∧
    (Keychain.init password t1).encKey = deriveKey password (getRandomBytes 16 t1) ∧
    Keychain.load password (Keychain.dump (Keychain.init password t1) t2).1
      (CheckVal.digestStr (Keychain.dump (Keychain.init password t1) t2).2)
      = LoadResult.ok (Keychain.init password t1) :=
  ⟨rfl, rfl, load_dump_aux password (getRandomBytes 16 t1) [] t2⟩

/-- Witness for C8 at concrete inputs. -/
theorem salt_generated_once_witness :
    (Keychain.init "pw" (fun _ => 2)).salt = getRandomBytes 16 (fun _ => 2) ∧
    (getRandomBytes 16 (fun _ => 2)).length = 16 ∧
    (Keychain.set ⟨[1], deriveKey "pw" [1], [("a", "x")]⟩ "a" "y").salt = [1] ∧
    ((Keychain.remove ⟨[1], deriveKey "pw" [1], [("a", "x")]⟩ "a").2).salt = [1] ∧
    ReprStr.saltOf (Keychain.dump ⟨[1], deriveKey "pw" [1], [("a", "x")]⟩ (fun _ => 3)).1
      = some [1] :=
  salt_generated_once "pw" (fun _ => 2) (fun _ => 3)
    ⟨[1], deriveKey "pw" [1], [("a", "x")]⟩ "a" "y"

/-- Witness for C10 at a concrete unparseable representation. -/
theorem load_empty_checksum_skipped_witness :
    Keychain.load "pw" (ReprStr.raw "junk") (CheckVal.otherStr "")
      = Keychain.load "pw" (ReprStr.raw "junk") CheckVal.undef ∧
    Keychain.load "pw" (ReprStr.raw "junk") (CheckVal.otherStr "")
      ≠ LoadResult.integrityError :=
  load_empty_checksum_skipped "pw" (ReprStr.raw "junk")
